import Mathlib

set_option linter.unusedVariables false

/-!
Verification of the branch-status classification and cleanup-safety engine
of the grove worktree manager (src/gtwsp/cli.py).

The engine shells out to git for five read-only queries and combines the
results into a `BranchStatus` record.  We embed the engine shallowly:

* each subprocess invocation is represented by its observable result
  (`CmdResult`: exit code plus captured stdout), supplied by a `GitEnv`
  oracle — queries whose command line depends on computed values
  (the merged-branch listing and the commit-count query) are functions of
  those values;
* the Python string operations (`strip`, `lstrip`, `split`, the two regex
  searches, `int(...)`) are modelled character-by-character on `List Char`;
* `run_git(..., capture=True)` uses `check=True`, so a non-zero exit there
  raises; we model it with `Except Unit`;
* to reason about side effects, `get_branch_status` also returns the list
  of git command lines it issued, in order.
-/

/-- Observable outcome of one `subprocess.run(["git", ...])` call:
the process exit status and its captured standard output. -/
structure CmdResult where
  returncode : Int
  stdout : String
deriving Repr, DecidableEq

/-- Oracle for the five git queries issued by `get_branch_status` /
`get_default_branch`.  Fields whose git command line depends on values
computed during classification are functions of those values. -/
structure GitEnv where
  lsRemoteHeads : CmdResult
  symbolicRef : CmdResult
  branchMerged : String → CmdResult
  revListCount : String → CmdResult
  diffStatHead : CmdResult

/-- Python `str.strip()` on a character list: drop whitespace from both ends. -/
def pyStrip (l : List Char) : List Char :=
  ((l.dropWhile Char.isWhitespace).reverse.dropWhile Char.isWhitespace).reverse

/-- Python `str.split(sep)` for a one-character separator: no collapsing,
splitting the empty string yields one empty field. -/
def splitOnChar (sep : Char) : List Char → List (List Char)
  | [] => [[]]
  | c :: cs =>
    match splitOnChar sep cs with
    | [] => [[]]
    | l :: ls => if c == sep then [] :: l :: ls else (c :: l) :: ls

/-- Python `str.lstrip("* ")`: drop leading stars and spaces. -/
def lstripStarSpace : List Char → List Char
  | [] => []
  | c :: cs => if c == '*' || c == ' ' then lstripStarSpace cs else c :: cs

/-- Whether `pat` occurs at the very start of `s`. -/
def matchesAt : List Char → List Char → Bool
  | [], _ => true
  | _ :: _, [] => false
  | p :: ps, c :: cs => p == c && matchesAt ps cs

/-- Python `pat in s`: substring containment. -/
def containsSub (pat : List Char) : List Char → Bool
  | [] => matchesAt pat []
  | c :: cs => matchesAt pat (c :: cs) || containsSub pat cs

/-- Decimal value of a digit run. -/
def digitsVal (l : List Char) : Nat :=
  l.foldl (fun acc c => acc * 10 + (c.toNat - 48)) 0

/-- Semantics of `re.search(r"(\d+) word", s)`: find the leftmost maximal
digit run that is immediately followed by a space and `word`, and return
its decimal value; `none` when no such run exists. -/
def reSearchNum (word : List Char) : List Char → Option Nat
  | [] => none
  | c :: cs =>
    if c.isDigit then
      if matchesAt (' ' :: word) ((c :: cs).dropWhile Char.isDigit) then
        some (digitsVal ((c :: cs).takeWhile Char.isDigit))
      else reSearchNum word cs
    else reSearchNum word cs

/-- Python `int(s)` after `.strip()`: optional sign followed by a nonempty
digit run; anything else raises, modelled as `none`. -/
def pyInt (s : String) : Option Int :=
  match pyStrip s.data with
  | [] => none
  | '-' :: ds =>
    if ds.isEmpty then none
    else if ds.all Char.isDigit then some (-(digitsVal ds : Int)) else none
  | '+' :: ds =>
    if ds.isEmpty then none
    else if ds.all Char.isDigit then some ((digitsVal ds : Int)) else none
  | ds =>
    if ds.isEmpty then none
    else if ds.all Char.isDigit then some ((digitsVal ds : Int)) else none

/-- The merged-branch parsing of `get_branch_status`:
`[b.strip().lstrip("* ") for b in result.stdout.strip().split("\n")]`. -/
def parseMergedBranches (out : String) : List String :=
  (splitOnChar '\n' (pyStrip out.data)).map
    (fun b => String.mk (lstripStarSpace (pyStrip b)))

/-- The final line of the stripped diff output (`lines[-1]`). -/
def diffSummaryLine (out : String) : List Char :=
  (splitOnChar '\n' (pyStrip out.data)).getLastD []

/-- The diff-stat parsing of `get_branch_status` (cli.py lines 182-195):
returns `(insertions, deletions, uncommitted_changes)`. -/
def parseDiffStat (out : String) : Nat × Nat × Nat :=
  if (pyStrip out.data).isEmpty then (0, 0, 0)
  else
    let summary := diffSummaryLine out
    if containsSub "insertion".data summary || containsSub "deletion".data summary then
      let ins := (reSearchNum "insertion".data summary).getD 0
      let del := (reSearchNum "deletion".data summary).getD 0
      (ins, del, ins + del)
    else (0, 0, 0)

/-- Status information for a worktree branch (the `BranchStatus` dataclass). -/
structure BranchStatus where
  name : String
  path : String
  has_remote : Bool
  is_merged : Bool
  unpushed_commits : Int
  uncommitted_changes : Nat
  insertions : Nat
  deletions : Nat
deriving Repr, DecidableEq

/-- The `is_safe_to_clean` property of `BranchStatus`:
`self.has_remote and self.unpushed_commits == 0 and self.uncommitted_changes == 0`. -/
def BranchStatus.is_safe_to_clean (s : BranchStatus) : Bool :=
  s.has_remote && s.unpushed_commits == 0 && s.uncommitted_changes == 0

/-- Command line of `git ls-remote --heads origin <branch>`. -/
def cmdLsRemote (branch : String) : List String :=
  ["ls-remote", "--heads", "origin", branch]

/-- Command line of `git symbolic-ref refs/remotes/origin/HEAD`. -/
def cmdSymbolicRef : List String :=
  ["symbolic-ref", "refs/remotes/origin/HEAD"]

/-- Command line of `git branch --merged origin/<default>`. -/
def cmdBranchMerged (defaultBranch : String) : List String :=
  ["branch", "--merged", "origin/" ++ defaultBranch]

/-- Command line of `git rev-list --count <range>`. -/
def cmdRevList (range : String) : List String :=
  ["rev-list", "--count", range]

/-- Command line of `git diff --stat HEAD`. -/
def cmdDiffStat : List String :=
  ["diff", "--stat", "HEAD"]

/-- `get_default_branch`: `run_git("symbolic-ref", "refs/remotes/origin/HEAD",
capture=True)` has `check=True`, so a non-zero exit raises
(`Except.error`); on success the last `/`-separated segment of the stripped
output is the default branch name. -/
def get_default_branch (env : GitEnv) : Except Unit String :=
  if env.symbolicRef.returncode == 0 then
    .ok (String.mk ((splitOnChar '/' (pyStrip env.symbolicRef.stdout.data)).getLastD []))
  else .error ()

/-- `has_remote = bool(result.stdout.strip())` for the ls-remote query. -/
def hasRemoteOf (env : GitEnv) : Bool :=
  !(pyStrip env.lsRemoteHeads.stdout.data).isEmpty

/-- The default branch name computed when `get_default_branch` succeeds. -/
def defaultBranchName (env : GitEnv) : String :=
  String.mk ((splitOnChar '/' (pyStrip env.symbolicRef.stdout.data)).getLastD [])

/-- The range expression handed to `git rev-list --count`:
`origin/<branch>..<branch>` when the remote branch exists, otherwise
`origin/<default>..<branch>`. -/
def rangeExprOf (env : GitEnv) (branch : String) : String :=
  if hasRemoteOf env then "origin/" ++ branch ++ ".." ++ branch
  else "origin/" ++ defaultBranchName env ++ ".." ++ branch

/-- `get_branch_status(tree_path, trunk_path, branch)` (cli.py lines
134-206), instrumented with the list of git command lines it issues.
`Except.error` models an uncaught Python exception: either
`get_default_branch` raising on a non-zero `symbolic-ref` exit, or
`int(...)` raising on unparseable rev-list output. -/
def get_branch_status (env : GitEnv) (tree_path trunk_path branch : String) :
    Except Unit BranchStatus × List (List String) :=
  let has_remote := hasRemoteOf env
  if env.symbolicRef.returncode == 0 then
    let default_branch := defaultBranchName env
    let r2 := env.branchMerged default_branch
    let merged_branches := parseMergedBranches r2.stdout
    let is_merged := merged_branches.contains branch
    let range := rangeExprOf env branch
    let r3 := env.revListCount range
    let unpushedOpt := if r3.returncode == 0 then pyInt r3.stdout else some 0
    match unpushedOpt with
    | none =>
      (.error (),
       [cmdLsRemote branch, cmdSymbolicRef, cmdBranchMerged default_branch, cmdRevList range])
    | some unpushed =>
      let stat := parseDiffStat env.diffStatHead.stdout
      (.ok { name := branch, path := tree_path, has_remote := has_remote,
             is_merged := is_merged, unpushed_commits := unpushed,
             uncommitted_changes := stat.2.2, insertions := stat.1,
             deletions := stat.2.1 },
       [cmdLsRemote branch, cmdSymbolicRef, cmdBranchMerged default_branch,
        cmdRevList range, cmdDiffStat])
  else
    (.error (), [cmdLsRemote branch, cmdSymbolicRef])

/-- Git subcommands that can create, modify or delete references, commits,
working-tree files, or repository configuration. -/
def mutatingGitSubcommands : List String :=
  ["clone", "fetch", "pull", "push", "checkout", "switch", "restore", "reset",
   "add", "rm", "mv", "commit", "merge", "rebase", "cherry-pick", "revert",
   "am", "apply", "stash", "tag", "worktree", "clean", "gc", "prune",
   "update-ref", "branch -d", "config", "remote", "filter-branch"]

/-- Flags under which `git branch` mutates (delete, rename, copy, force,
upstream changes); without them `git branch --merged ...` only lists. -/
def mutatingBranchFlags : List String :=
  ["-d", "-D", "--delete", "-m", "-M", "--move", "-c", "-C", "--copy",
   "-f", "--force", "--set-upstream-to", "--unset-upstream", "-u",
   "--edit-description"]

/-- A git command line is read-only if its subcommand is not in the
mutating list, a `branch` invocation carries no mutating flag, and a
`symbolic-ref` invocation is the one-argument read form (the two-argument
form writes the ref). -/
def isReadOnlyGitCmd (cmd : List String) : Bool :=
  match cmd with
  | [] => false
  | sub :: args =>
    !(mutatingGitSubcommands.contains sub) &&
    (sub != "branch" || args.all (fun a => !(mutatingBranchFlags.contains a))) &&
    (sub != "symbolic-ref" || args.length ≤ 1)

/-- Environment in which every query succeeds: the branch has a remote,
is merged, is 3 commits ahead, and has 7 insertions and 4 deletions. -/
def envAllOk : GitEnv :=
  { lsRemoteHeads := ⟨0, "deadbeef\trefs/heads/feature"⟩
  , symbolicRef := ⟨0, "refs/remotes/origin/main"⟩
  , branchMerged := fun _ => ⟨0, "  main\n* feature"⟩
  , revListCount := fun _ => ⟨0, "3"⟩
  , diffStatHead := ⟨0, "2 files changed, 7 insertions(+), 4 deletions(-)"⟩ }

/-- A field-for-field copy of `envAllOk`, written out separately. -/
def envAllOkCopy : GitEnv :=
  { lsRemoteHeads := ⟨0, "deadbeef\trefs/heads/feature"⟩
  , symbolicRef := ⟨0, "refs/remotes/origin/main"⟩
  , branchMerged := fun _ => ⟨0, "  main\n* feature"⟩
  , revListCount := fun _ => ⟨0, "3"⟩
  , diffStatHead := ⟨0, "2 files changed, 7 insertions(+), 4 deletions(-)"⟩ }

/-- The classification `envAllOk` produces for branch "feature". -/
def statusAllOk : BranchStatus :=
  { name := "feature", path := "t", has_remote := true, is_merged := true,
    unpushed_commits := 3, uncommitted_changes := 11, insertions := 7,
    deletions := 4 }

/-- Environment where the `symbolic-ref` query for the default branch exits
non-zero (exit 128, e.g. the ref does not exist) while every other query
succeeds. -/
def envSymRefFails : GitEnv :=
  { lsRemoteHeads := ⟨0, "deadbeef\trefs/heads/feature"⟩
  , symbolicRef := ⟨128, ""⟩
  , branchMerged := fun _ => ⟨0, "  main\n* feature"⟩
  , revListCount := fun _ => ⟨0, "3"⟩
  , diffStatHead := ⟨0, ""⟩ }

/-- Environment where every query other than `symbolic-ref` fails with a
non-zero exit and empty stdout. -/
def envAllQueriesFail : GitEnv :=
  { lsRemoteHeads := ⟨128, ""⟩
  , symbolicRef := ⟨0, "refs/remotes/origin/main"⟩
  , branchMerged := fun _ => ⟨128, ""⟩
  , revListCount := fun _ => ⟨128, ""⟩
  , diffStatHead := ⟨128, ""⟩ }

/-- Environment where only the commit-counting query fails. -/
def envCountFails : GitEnv :=
  { lsRemoteHeads := ⟨0, "deadbeef\trefs/heads/feature"⟩
  , symbolicRef := ⟨0, "refs/remotes/origin/main"⟩
  , branchMerged := fun _ => ⟨0, "  main\n* feature"⟩
  , revListCount := fun _ => ⟨128, ""⟩
  , diffStatHead := ⟨0, ""⟩ }

/-- Environment whose diff output is non-empty but whose summary line
mentions neither insertions nor deletions (a binary-only diff). -/
def envBinDiff : GitEnv :=
  { lsRemoteHeads := ⟨0, "deadbeef\trefs/heads/feature"⟩
  , symbolicRef := ⟨0, "refs/remotes/origin/main"⟩
  , branchMerged := fun _ => ⟨0, "  main\n* feature"⟩
  , revListCount := fun _ => ⟨0, "0"⟩
  , diffStatHead := ⟨0, "img.png | Bin 1024 -> 2048 bytes\n1 file changed"⟩ }

/-- The classification `envBinDiff` produces for branch "feature". -/
def statusBinDiff : BranchStatus :=
  { name := "feature", path := "t", has_remote := true, is_merged := true,
    unpushed_commits := 0, uncommitted_changes := 0, insertions := 0,
    deletions := 0 }

/-- A record that is safe to clean and not merged. -/
def statusUnmergedClean : BranchStatus :=
  { name := "feature", path := "t", has_remote := true, is_merged := false,
    unpushed_commits := 0, uncommitted_changes := 0, insertions := 0,
    deletions := 0 }

/-- Agrees with `statusUnmergedClean` on the three verdict-relevant fields
but differs in is_merged, name, path, insertions and deletions. -/
def statusMergedClean : BranchStatus :=
  { name := "other", path := "q", has_remote := true, is_merged := true,
    unpushed_commits := 0, uncommitted_changes := 0, insertions := 2,
    deletions := 3 }

/-- Central inversion lemma: when classification succeeds, every field of
the returned record is determined by the corresponding query result. -/
theorem get_branch_status_ok_inv (env : GitEnv) (t k b : String) (s : BranchStatus)
    (hok : (get_branch_status env t k b).1 = .ok s) :
    s.name = b ∧ s.path = t ∧ s.has_remote = hasRemoteOf env ∧
    s.is_merged = (parseMergedBranches (env.branchMerged (defaultBranchName env)).stdout).contains b ∧
    s.unpushed_commits = (if (env.revListCount (rangeExprOf env b)).returncode == 0
        then (pyInt (env.revListCount (rangeExprOf env b)).stdout).getD 0 else 0) ∧
    s.insertions = (parseDiffStat env.diffStatHead.stdout).1 ∧
    s.deletions = (parseDiffStat env.diffStatHead.stdout).2.1 ∧
    s.uncommitted_changes = (parseDiffStat env.diffStatHead.stdout).2.2 := by
  simp only [get_branch_status] at hok
  split at hok
  next hsym =>
    split at hok
    next hnone => simp at hok
    next u hsome =>
      simp only [Except.ok.injEq] at hok
      subst hok
      refine ⟨rfl, rfl, rfl, rfl, ?_, rfl, rfl, rfl⟩
      split
      next hrc =>
        rw [if_pos hrc] at hsome
        rw [hsome]
        rfl
      next hrc =>
        rw [if_neg hrc] at hsome
        exact (Option.some.inj hsome).symm
  next hsym => simp at hok

/-- When classification succeeds, the issued git commands are exactly the
five queries, in source order. -/
theorem get_branch_status_ok_trace (env : GitEnv) (t k b : String) (s : BranchStatus)
    (hok : (get_branch_status env t k b).1 = .ok s) :
    (get_branch_status env t k b).2 =
      [cmdLsRemote b, cmdSymbolicRef, cmdBranchMerged (defaultBranchName env),
       cmdRevList (rangeExprOf env b), cmdDiffStat] := by
  simp only [get_branch_status] at hok ⊢
  split at hok
  next hsym =>
    rw [if_pos hsym]
    split at hok
    next hnone =>
      simp at hok
    next u hsome =>
      rfl
  next hsym =>
    simp at hok

/-- The third component of a parsed diff stat is always the sum of the
first two. -/
theorem parseDiffStat_sum (out : String) :
    (parseDiffStat out).2.2 = (parseDiffStat out).1 + (parseDiffStat out).2.1 := by
  simp only [parseDiffStat]
  split
  · rfl
  split
  · rfl
  · rfl

/-- Empty diff output, or a summary line mentioning neither insertions nor
deletions, parses to all zeros. -/
theorem parseDiffStat_unparseable (out : String)
    (h : (pyStrip out.data).isEmpty = true ∨
      (containsSub "insertion".data (diffSummaryLine out) = false ∧
       containsSub "deletion".data (diffSummaryLine out) = false)) :
    parseDiffStat out = (0, 0, 0) := by
  simp only [parseDiffStat]
  split
  next => rfl
  next hne =>
    rcases h with h | ⟨h1, h2⟩
    · exact absurd h hne
    · rw [h1, h2]
      rfl

/-- Claim C1: for every BranchStatus, is_safe_to_clean is true if and only
if has_remote is true, unpushed_commits is 0 and uncommitted_changes is 0;
the verdict is a pure function of the status fields. -/
theorem claim_c1_is_safe_to_clean_iff (s : BranchStatus) :
    s.is_safe_to_clean = true ↔
      (s.has_remote = true ∧ s.unpushed_commits = 0 ∧ s.uncommitted_changes = 0) := by
  simp [BranchStatus.is_safe_to_clean, and_assoc]

/-- Witness for C1 at a concrete record. -/
theorem claim_c1_is_safe_to_clean_iff_witness :
    statusUnmergedClean.is_safe_to_clean = true :=
  (claim_c1_is_safe_to_clean_iff statusUnmergedClean).mpr ⟨rfl, rfl, rfl⟩

/-- Counterexample to claim C2 as stated: in envSymRefFails the only
failing VCS sub-query is the default-branch resolution (symbolic-ref exits
128) and every other query succeeds, yet classification propagates an
error to the caller instead of recovering. -/
theorem claim_c2_counterexample :
    (get_branch_status envSymRefFails "t" "k" "feature").1 = .error () := rfl

/-- Claim C2 (amended): a failed remote-existence query (empty output)
yields has_remote = false, a failed merged-branch listing (empty output)
yields a merged list whose only entry is the empty string, so is_merged is
false for every non-empty branch name, and failed counting queries are not
propagated; however a failed default-branch resolution (non-zero exit from
the symbolic-ref query, which runs with check=True) IS propagated as an
error to the caller. -/
theorem claim_c2_failure_policy :
    (∀ (env : GitEnv) (t k b : String), env.symbolicRef.returncode ≠ 0 →
        (get_branch_status env t k b).1 = .error ()) ∧
    (∀ (env : GitEnv) (t k b : String), b ≠ "" → env.symbolicRef.returncode = 0 →
        pyStrip env.lsRemoteHeads.stdout.data = [] →
        (∀ d, pyStrip (env.branchMerged d).stdout.data = []) →
        (∀ r, (env.revListCount r).returncode ≠ 0) →
        ∃ s, (get_branch_status env t k b).1 = .ok s ∧
          s.has_remote = false ∧ s.is_merged = false ∧ s.unpushed_commits = 0) := by
  constructor
  · intro env t k b h
    simp only [get_branch_status]
    rw [if_neg (by simp [h])]
  · intro env t k b hb hsym hls hmb hrc
    have hhr : hasRemoteOf env = false := by
      simp [hasRemoteOf, hls]
    have hmg : parseMergedBranches (env.branchMerged (defaultBranchName env)).stdout = [""] := by
      unfold parseMergedBranches
      rw [hmb (defaultBranchName env)]
      rfl
    simp only [get_branch_status]
    rw [if_pos (by simp [hsym] : (env.symbolicRef.returncode == 0) = true),
        if_neg (by simp [hrc (rangeExprOf env b)] :
          ¬(((env.revListCount (rangeExprOf env b)).returncode == 0) = true))]
    refine ⟨_, rfl, hhr, ?_, rfl⟩
    have hbeq : (b == "") = false := beq_eq_false_iff_ne.mpr hb
    rw [hmg]
    simp [List.contains, List.elem, hbeq]

/-- Witness for the amended C2, applying both halves at concrete
environments. -/
theorem claim_c2_failure_policy_witness :
    (get_branch_status envSymRefFails "tt" "kk" "feature").1 = .error () ∧
    (∃ s, (get_branch_status envAllQueriesFail "t" "k" "feature").1 = .ok s ∧
      s.has_remote = false ∧ s.is_merged = false ∧ s.unpushed_commits = 0) :=
  ⟨claim_c2_failure_policy.1 envSymRefFails "tt" "kk" "feature" (by decide),
   claim_c2_failure_policy.2 envAllQueriesFail "t" "k" "feature" (by decide) rfl rfl
     (fun _ => rfl) (fun _ => show (128 : Int) ≠ 0 by decide)⟩

/-- Claim C3: every BranchStatus returned by a successful classification
satisfies uncommitted_changes = insertions + deletions, for all inputs and
all query results. -/
theorem claim_c3_uncommitted_invariant (env : GitEnv) (t k b : String)
    (s : BranchStatus) (hok : (get_branch_status env t k b).1 = .ok s) :
    s.uncommitted_changes = s.insertions + s.deletions := by
  obtain ⟨-, -, -, -, -, hi, hd, hu⟩ := get_branch_status_ok_inv env t k b s hok
  rw [hu, hi, hd, parseDiffStat_sum]

/-- Witness for C3 at a concrete successful classification. -/
theorem claim_c3_uncommitted_invariant_witness :
    statusAllOk.uncommitted_changes = statusAllOk.insertions + statusAllOk.deletions :=
  claim_c3_uncommitted_invariant envAllOk "t" "k" "feature" statusAllOk rfl

/-- Claim C4: when the commit-counting query exits with non-zero status
(and the preceding default-branch resolution succeeded, so the counting
query is actually reached), classification succeeds with
unpushed_commits = 0 instead of raising. -/
theorem claim_c4_failed_count_fail_open (env : GitEnv) (t k b : String)
    (hsym : env.symbolicRef.returncode = 0)
    (hrc : (env.revListCount (rangeExprOf env b)).returncode ≠ 0) :
    ∃ s, (get_branch_status env t k b).1 = .ok s ∧ s.unpushed_commits = 0 := by
  simp only [get_branch_status]
  rw [if_pos (by simp [hsym] : (env.symbolicRef.returncode == 0) = true),
      if_neg (by simp [hrc] :
        ¬(((env.revListCount (rangeExprOf env b)).returncode == 0) = true))]
  exact ⟨_, rfl, rfl⟩

/-- Witness for C4: the counting query exits 128, classification still
succeeds with a zero count. -/
theorem claim_c4_failed_count_fail_open_witness :
    ∃ s, (get_branch_status envCountFails "t" "k" "feature").1 = .ok s ∧
      s.unpushed_commits = 0 :=
  claim_c4_failed_count_fail_open envCountFails "t" "k" "feature" rfl (by decide)

/-- Claim C5: the unpushed-commit count is taken from the rev-list query
whose range is selected by has_remote — origin/branch..branch when the
remote branch exists, origin/default..branch otherwise — and that query is
among the commands issued. -/
theorem claim_c5_count_reference (env : GitEnv) (t k b : String) (s : BranchStatus)
    (hok : (get_branch_status env t k b).1 = .ok s) :
    ((get_branch_status env t k b).2).contains
        (cmdRevList (if hasRemoteOf env then "origin/" ++ b ++ ".." ++ b
          else "origin/" ++ defaultBranchName env ++ ".." ++ b)) = true ∧
    s.unpushed_commits =
      (if (env.revListCount (if hasRemoteOf env then "origin/" ++ b ++ ".." ++ b
            else "origin/" ++ defaultBranchName env ++ ".." ++ b)).returncode == 0
       then (pyInt (env.revListCount (if hasRemoteOf env then "origin/" ++ b ++ ".." ++ b
            else "origin/" ++ defaultBranchName env ++ ".." ++ b)).stdout).getD 0
       else 0) := by
  have hrange : (if hasRemoteOf env then "origin/" ++ b ++ ".." ++ b
      else "origin/" ++ defaultBranchName env ++ ".." ++ b) = rangeExprOf env b := rfl
  rw [hrange]
  constructor
  · rw [get_branch_status_ok_trace env t k b s hok]
    simp only [List.contains, List.elem, beq_self_eq_true]
    split
    · rfl
    split
    · rfl
    split
    · rfl
    · rfl
  · exact (get_branch_status_ok_inv env t k b s hok).2.2.2.2.1

/-- Witness for C5 at a concrete successful classification. -/
theorem claim_c5_count_reference_witness :
    ((get_branch_status envAllOk "t" "k" "feature").2).contains
        (cmdRevList (if hasRemoteOf envAllOk then "origin/" ++ "feature" ++ ".." ++ "feature"
          else "origin/" ++ defaultBranchName envAllOk ++ ".." ++ "feature")) = true ∧
    statusAllOk.unpushed_commits =
      (if (envAllOk.revListCount (if hasRemoteOf envAllOk then "origin/" ++ "feature" ++ ".." ++ "feature"
            else "origin/" ++ defaultBranchName envAllOk ++ ".." ++ "feature")).returncode == 0
       then (pyInt (envAllOk.revListCount (if hasRemoteOf envAllOk then "origin/" ++ "feature" ++ ".." ++ "feature"
            else "origin/" ++ defaultBranchName envAllOk ++ ".." ++ "feature")).stdout).getD 0
       else 0) :=
  claim_c5_count_reference envAllOk "t" "k" "feature" statusAllOk rfl

/-- Claim C6: the two concrete diff-stat summary lines parse to
(insertions, deletions, uncommitted_changes) = (10, 5, 15) and (2, 0, 2)
respectively, the absent deletions clause defaulting to 0. -/
theorem claim_c6_diff_parse_examples :
    parseDiffStat "3 files changed, 10 insertions(+), 5 deletions(-)" = (10, 5, 15) ∧
    parseDiffStat "1 file changed, 2 insertions(+)" = (2, 0, 2) :=
  ⟨by decide, by decide⟩

/-- Claim C7: when the diff output is empty, or its final summary line
contains neither the word insertion nor the word deletion, a successful
classification reports insertions = deletions = uncommitted_changes = 0. -/
theorem claim_c7_unparseable_diff_zero (env : GitEnv) (t k b : String)
    (s : BranchStatus) (hok : (get_branch_status env t k b).1 = .ok s)
    (hbad : (pyStrip env.diffStatHead.stdout.data).isEmpty = true ∨
      (containsSub "insertion".data (diffSummaryLine env.diffStatHead.stdout) = false ∧
       containsSub "deletion".data (diffSummaryLine env.diffStatHead.stdout) = false)) :
    s.insertions = 0 ∧ s.deletions = 0 ∧ s.uncommitted_changes = 0 := by
  obtain ⟨-, -, -, -, -, hi, hd, hu⟩ := get_branch_status_ok_inv env t k b s hok
  rw [parseDiffStat_unparseable env.diffStatHead.stdout hbad] at hi hd hu
  exact ⟨hi, hd, hu⟩

/-- Witness for C7 on a binary-only diff whose summary line has neither
clause. -/
theorem claim_c7_unparseable_diff_zero_witness :
    statusBinDiff.insertions = 0 ∧ statusBinDiff.deletions = 0 ∧
      statusBinDiff.uncommitted_changes = 0 :=
  claim_c7_unparseable_diff_zero envBinDiff "t" "k" "feature" statusBinDiff rfl
    (Or.inr ⟨by decide, by decide⟩)

/-- Claim C8: classification is deterministic — two calls with identical
underlying VCS query results (the five observable query outcomes agree
pointwise) return identical BranchStatus results and identical command
traces. -/
theorem claim_c8_deterministic (e₁ e₂ : GitEnv) (t k b : String)
    (h1 : e₁.lsRemoteHeads = e₂.lsRemoteHeads)
    (h2 : e₁.symbolicRef = e₂.symbolicRef)
    (h3 : ∀ d, e₁.branchMerged d = e₂.branchMerged d)
    (h4 : ∀ r, e₁.revListCount r = e₂.revListCount r)
    (h5 : e₁.diffStatHead = e₂.diffStatHead) :
    get_branch_status e₁ t k b = get_branch_status e₂ t k b := by
  have h3' : e₁.branchMerged = e₂.branchMerged := funext h3
  have h4' : e₁.revListCount = e₂.revListCount := funext h4
  have he : e₁ = e₂ := by
    obtain ⟨a1, a2, a3, a4, a5⟩ := e₁
    obtain ⟨b1, b2, b3, b4, b5⟩ := e₂
    change a1 = b1 at h1
    change a2 = b2 at h2
    change a3 = b3 at h3'
    change a4 = b4 at h4'
    change a5 = b5 at h5
    subst h1
    subst h2
    subst h3'
    subst h4'
    subst h5
    rfl
  rw [he]

/-- Witness for C8: two structurally separate copies of the same query
results classify identically. -/
theorem claim_c8_deterministic_witness :
    get_branch_status envAllOk "t" "k" "feature" =
      get_branch_status envAllOkCopy "t" "k" "feature" :=
  claim_c8_deterministic envAllOk envAllOkCopy "t" "k" "feature" rfl rfl
    (fun _ => rfl) (fun _ => rfl) rfl

/-- Claim C9: for every input, every git command line issued by
classification is read-only — its subcommand is not a mutating one, a
branch invocation carries only listing arguments, and symbolic-ref is
used in its one-argument read form. -/
theorem claim_c9_read_only (env : GitEnv) (t k b : String) :
    ((get_branch_status env t k b).2).all isReadOnlyGitCmd = true := by
  simp only [get_branch_status]
  split
  · split
    · rfl
    · rfl
  · rfl

/-- Claim C10: the cleanup-safety verdict ignores is_merged (and name,
path, insertions, deletions): any two records agreeing on has_remote,
unpushed_commits and uncommitted_changes get the same verdict; moreover an
unmerged branch can be classified safe to clean. -/
theorem claim_c10_verdict_ignores_merge :
    (∀ s u : BranchStatus, s.has_remote = u.has_remote →
        s.unpushed_commits = u.unpushed_commits →
        s.uncommitted_changes = u.uncommitted_changes →
        s.is_safe_to_clean = u.is_safe_to_clean) ∧
    (∃ s : BranchStatus, s.is_merged = false ∧ s.is_safe_to_clean = true) := by
  constructor
  · intro s u h1 h2 h3
    simp [BranchStatus.is_safe_to_clean, h1, h2, h3]
  · exact ⟨statusUnmergedClean, rfl, rfl⟩

/-- Witness for C10: two records differing in is_merged, name, path,
insertions and deletions but agreeing on the three verdict inputs receive
the same verdict. -/
theorem claim_c10_verdict_ignores_merge_witness :
    statusUnmergedClean.is_safe_to_clean = statusMergedClean.is_safe_to_clean :=
  claim_c10_verdict_ignores_merge.1 statusUnmergedClean statusMergedClean rfl rfl rfl
